import Mathlib

/-!
Shallow embedding of the lightbus `BusClient` (src/lightbus/client/bus_client.py)
for verification of its lifecycle and dispatch behaviour.

Each definition is translated from the named source location. Awaited effects
(transport calls, hook invocations, validation) are recorded as explicit events
or counters so that ordering and occurrence claims can be stated and proved.
-/

/-- The three feature toggles (`lightbus.utilities.features.Feature`); the spec
fixes the feature set as a subset of RPCS, EVENTS, TASKS. -/
inductive Feature where
  | RPCS
  | EVENTS
  | TASKS
deriving DecidableEq, Repr

/-- `ALL_FEATURES` from `lightbus.utilities.features`: every feature enabled. -/
def ALL_FEATURES : List Feature := [Feature.RPCS, Feature.EVENTS, Feature.TASKS]

/-! ### Close lifecycle (`BusClient.close_async`, bus_client.py lines 108-133) -/

/-- State touched by `close_async`. Counters record how many times each piece of
shutdown work has been performed: one `cancelSweeps` unit is the loop cancelling
every listener and background task, one `transportCloseSweeps` unit is the loop
closing every transport in the transport registry, `schemaTransportCloseCount`
counts calls to `schema.schema_transport.close()`, and `invokerStopCount` counts
calls to `self._transport_invoker.stop()` (run in the `finally` block). -/
structure ClientState where
  closed : Bool
  cancelSweeps : Nat
  transportCloseSweeps : Nat
  schemaTransportCloseCount : Nat
  invokerStopCount : Nat
deriving DecidableEq, Repr

/-- Outcome of one `close_async` call: normal completion, or the
`BusAlreadyClosed` exception. -/
inductive CloseResult where
  | ok
  | alreadyClosed
deriving DecidableEq, Repr

/-- `BusClient.close_async` (bus_client.py lines 108-133). If `_closed` is
already set it raises `BusAlreadyClosed` (the `finally` block still stops the
transport invoker); otherwise it cancels listener and background tasks, closes
every registry transport, closes the schema transport, sets `_closed`, and
stops the transport invoker. -/
def close_async (s : ClientState) : CloseResult × ClientState :=
  if s.closed then
    (CloseResult.alreadyClosed, { s with invokerStopCount := s.invokerStopCount + 1 })
  else
    (CloseResult.ok,
      { closed := true
        cancelSweeps := s.cancelSweeps + 1
        transportCloseSweeps := s.transportCloseSweeps + 1
        schemaTransportCloseCount := s.schemaTransportCloseCount + 1
        invokerStopCount := s.invokerStopCount + 1 })

/-- Iterate `close_async` `n` times, collecting the results of each call. -/
def closeN : Nat → ClientState → List CloseResult × ClientState
  | 0, s => ([], s)
  | n + 1, s =>
    let (r, s') := close_async s
    let (rs, s'') := closeN n s'
    (r :: rs, s'')

theorem closeN_of_closed (n : Nat) (s : ClientState) (h : s.closed = true) :
    (closeN n s).1 = List.replicate n CloseResult.alreadyClosed ∧
    (closeN n s).2.closed = true ∧
    (closeN n s).2.cancelSweeps = s.cancelSweeps ∧
    (closeN n s).2.transportCloseSweeps = s.transportCloseSweeps ∧
    (closeN n s).2.schemaTransportCloseCount = s.schemaTransportCloseCount := by
  induction n generalizing s with
  | zero => simp [closeN, h]
  | succ n ih =>
    have hclose : close_async s =
        (CloseResult.alreadyClosed, { s with invokerStopCount := s.invokerStopCount + 1 }) := by
      simp [close_async, h]
    have ih' := ih { s with invokerStopCount := s.invokerStopCount + 1 } (by simpa using h)
    simp only [closeN, hclose]
    exact ⟨by simp [ih'.1, List.replicate_succ], ih'.2.1, ih'.2.2.1, ih'.2.2.2.1, ih'.2.2.2.2⟩

/-- C2: on a client that is not yet closed, the first `close_async` call
performs the shutdown work (cancels tasks, closes every registry transport,
closes the schema transport) exactly once and marks the client closed; every
subsequent call raises `BusAlreadyClosed` and repeats none of that work. -/
theorem close_second_call_raises (s : ClientState) (h : s.closed = false) (n : Nat) :
    (close_async s).1 = CloseResult.ok ∧
    (close_async s).2.closed = true ∧
    (close_async s).2.cancelSweeps = s.cancelSweeps + 1 ∧
    (close_async s).2.transportCloseSweeps = s.transportCloseSweeps + 1 ∧
    (close_async s).2.schemaTransportCloseCount = s.schemaTransportCloseCount + 1 ∧
    (closeN n (close_async s).2).1 = List.replicate n CloseResult.alreadyClosed ∧
    (closeN n (close_async s).2).2.cancelSweeps = s.cancelSweeps + 1 ∧
    (closeN n (close_async s).2).2.transportCloseSweeps = s.transportCloseSweeps + 1 ∧
    (closeN n (close_async s).2).2.schemaTransportCloseCount = s.schemaTransportCloseCount + 1 := by
  have hfirst : close_async s =
      (CloseResult.ok,
        { closed := true
          cancelSweeps := s.cancelSweeps + 1
          transportCloseSweeps := s.transportCloseSweeps + 1
          schemaTransportCloseCount := s.schemaTransportCloseCount + 1
          invokerStopCount := s.invokerStopCount + 1 }) := by
    simp [close_async, h]
  have hrest := closeN_of_closed n (close_async s).2 (by simp [hfirst])
  refine ⟨by simp [hfirst], by simp [hfirst], by simp [hfirst], by simp [hfirst],
    by simp [hfirst], hrest.1, ?_, ?_, ?_⟩
  · rw [hrest.2.2.1]; simp [hfirst]
  · rw [hrest.2.2.2.1]; simp [hfirst]
  · rw [hrest.2.2.2.2]; simp [hfirst]

/-- Witness for `close_second_call_raises` at a concrete fresh client state and
two follow-up calls. -/
theorem close_second_call_raises_witness :
    (close_async ⟨false, 0, 0, 0, 0⟩).1 = CloseResult.ok ∧
    (closeN 2 (close_async ⟨false, 0, 0, 0, 0⟩).2).1 =
      [CloseResult.alreadyClosed, CloseResult.alreadyClosed] := by
  have h := close_second_call_raises ⟨false, 0, 0, 0, 0⟩ rfl 2
  exact ⟨h.1, by rw [h.2.2.2.2.2.1]; rfl⟩

/-! ### Feature adjustment at server start (`BusClient.run_forever`,
bus_client.py lines 139-146, and `BusClient._setup_server` lines 234-238) -/

/-- The feature adjustment at the top of `BusClient.run_forever` (lines
140-142): when no APIs are registered and RPCS is enabled, RPCS is removed from
the feature list (Python `list.remove`, which drops the first occurrence). -/
def run_forever_feature_adjust (registeredApis : List String) (features : List Feature) :
    List Feature :=
  if registeredApis = [] ∧ Feature.RPCS ∈ features then
    features.erase Feature.RPCS
  else
    features

/-- The RPC-consumer spawn decision in `BusClient._setup_server` (lines
234-238): a `consume_rpcs` task is created exactly when RPCS is enabled. -/
def setup_server_spawns_rpc_consumer (features : List Feature) : Bool :=
  Feature.RPCS ∈ features

/-- C8: during server startup with an empty API registry and RPCS enabled (the
feature list holding each feature at most once), `run_forever` removes RPCS
from the features, and consequently `_setup_server` spawns no RPC consumer
task. -/
theorem no_apis_disables_rpcs (registeredApis : List String) (features : List Feature)
    (hempty : registeredApis = []) (hrpcs : Feature.RPCS ∈ features)
    (hnodup : features.Nodup) :
    Feature.RPCS ∉ run_forever_feature_adjust registeredApis features ∧
    setup_server_spawns_rpc_consumer (run_forever_feature_adjust registeredApis features)
      = false := by
  have hadj : run_forever_feature_adjust registeredApis features
      = features.erase Feature.RPCS := by
    simp [run_forever_feature_adjust, hempty, hrpcs]
  have hnotmem : Feature.RPCS ∉ features.erase Feature.RPCS := hnodup.not_mem_erase
  constructor
  · rw [hadj]; exact hnotmem
  · rw [hadj]
    simp [setup_server_spawns_rpc_consumer, hnotmem]

/-- Witness for `no_apis_disables_rpcs`: empty registry, all features enabled. -/
theorem no_apis_disables_rpcs_witness :
    Feature.RPCS ∉ run_forever_feature_adjust [] ALL_FEATURES ∧
    setup_server_spawns_rpc_consumer (run_forever_feature_adjust [] ALL_FEATURES) = false :=
  no_apis_disables_rpcs [] ALL_FEATURES rfl (by decide) (by decide)

/-! ### Messages (`lightbus.message`; fields per the spec data model) -/

/-- An `RpcMessage` (spec section 3): unique id, api name, procedure name,
kwargs, and a return path set once before dispatch. -/
structure RpcMessage where
  id : Nat
  api_name : String
  procedure_name : String
  kwargs : List (String × String)
  return_path : String
deriving DecidableEq, Repr

/-- `RpcMessage.canonical_name` is `api_name + "." + procedure_name`. -/
def RpcMessage.canonical_name (m : RpcMessage) : String :=
  m.api_name ++ "." ++ m.procedure_name

/-- A `ResultMessage` (spec section 3): the rpc message id it answers, a result
that is either the payload or the exception description, an error flag, and a
remote trace (meaningful only when `error`). -/
structure ResultMessage where
  rpc_message_id : Nat
  result : String
  error : Bool
  trace : String
deriving DecidableEq, Repr

/-- Description of a raised exception: the rendered exception text and its
stack trace. -/
structure ExceptionInfo where
  description : String
  trace : String
deriving DecidableEq, Repr

/-- Modelled from the spec: the `ResultMessage` constructor lives in
`lightbus.message`, which is not under src/. Per spec section 3 invariant 5
(`error ⇒ result is the exception description`), constructing a result message
from an exception sets `error` and stores the exception description (and its
trace); constructing it from a plain value leaves `error` unset. -/
def mkResultMessage (rpcMessageId : Nat) (result : Sum String ExceptionInfo) : ResultMessage :=
  match result with
  | Sum.inl v => { rpc_message_id := rpcMessageId, result := v, error := false, trace := "" }
  | Sum.inr e =>
      { rpc_message_id := rpcMessageId, result := e.description, error := true, trace := e.trace }

/-- Modelled from the spec: `deform_to_bus` (from `lightbus.utilities.deforming`,
not under src/) converts a domain value into a bus-safe primitive form. Values
in this embedding are already primitive, so deforming is the identity. -/
def deform_to_bus (v : String) : String := v

/-! ### RPC consumption entry point (`BusClient.consume_rpcs`,
bus_client.py lines 318-349) -/

/-- Outcome of `consume_rpcs`: either the `NoApisToListenOn` exception, or the
consumer task is started over the APIs grouped by RPC transport (each group is
a transport handle together with the API names it serves). -/
inductive ConsumeRpcsOutcome where
  | noApisToListenOn
  | started (groups : List (Nat × List String))
deriving DecidableEq, Repr

/-- `TransportRegistry.get_rpc_transports(api_names)` (spec section 4.A):
groups API names by the transport handle that serves them. Transports are
identified by `Nat` handles and `rpcTransportOf` is the registry's per-API
binding. -/
def get_rpc_transports (rpcTransportOf : String → Nat) (apiNames : List String) :
    List (Nat × List String) :=
  ((apiNames.map rpcTransportOf).dedup).map
    (fun t => (t, apiNames.filter (fun a => rpcTransportOf a = t)))

/-- `BusClient.consume_rpcs` (bus_client.py lines 318-349): `apis` defaults to
the registry contents when not given; if the resulting list is empty,
`NoApisToListenOn` is raised; otherwise the APIs are grouped by their RPC
transport and a consumer is started per group. -/
def consume_rpcs (rpcTransportOf : String → Nat) (registryApis : List String)
    (apis : Option (List String)) : ConsumeRpcsOutcome :=
  let resolved := match apis with
    | none => registryApis
    | some given => given
  if resolved = [] then
    ConsumeRpcsOutcome.noApisToListenOn
  else
    ConsumeRpcsOutcome.started (get_rpc_transports rpcTransportOf resolved)

/-- C9: `consume_rpcs` raises `NoApisToListenOn` exactly when it is called with
an explicit empty API list, or with no API list while the registry is empty;
otherwise it starts consumers over the APIs grouped by RPC transport, and every
API to serve appears in the group of the transport that serves it. -/
theorem consume_rpcs_no_apis (rpcTransportOf : String → Nat) (registryApis : List String)
    (apis : Option (List String)) :
    (consume_rpcs rpcTransportOf registryApis apis = ConsumeRpcsOutcome.noApisToListenOn ↔
      (apis = some [] ∨ (apis = none ∧ registryApis = []))) ∧
    (∀ resolved, resolved = (match apis with | none => registryApis | some given => given) →
      resolved ≠ [] →
      consume_rpcs rpcTransportOf registryApis apis =
        ConsumeRpcsOutcome.started (get_rpc_transports rpcTransportOf resolved) ∧
      ∀ a ∈ resolved,
        (rpcTransportOf a, resolved.filter (fun x => rpcTransportOf x = rpcTransportOf a))
          ∈ get_rpc_transports rpcTransportOf resolved ∧
        a ∈ resolved.filter (fun x => rpcTransportOf x = rpcTransportOf a)) := by
  constructor
  · constructor
    · intro h
      cases apis with
      | none =>
        right
        refine ⟨rfl, ?_⟩
        by_contra hne
        simp [consume_rpcs, hne] at h
      | some given =>
        left
        by_contra hne
        have hg : given ≠ [] := by
          intro hgg
          exact hne (by rw [hgg])
        simp [consume_rpcs, hg] at h
    · intro h
      rcases h with h | ⟨h1, h2⟩
      · subst h; simp [consume_rpcs]
      · subst h1; subst h2; simp [consume_rpcs]
  · intro resolved hres hne
    have hout : consume_rpcs rpcTransportOf registryApis apis =
        ConsumeRpcsOutcome.started (get_rpc_transports rpcTransportOf resolved) := by
      cases apis with
      | none =>
        simp only at hres
        subst hres
        simp [consume_rpcs, hne]
      | some given =>
        simp only at hres
        subst hres
        simp [consume_rpcs, hne]
    refine ⟨hout, ?_⟩
    intro a ha
    constructor
    · have hmem : rpcTransportOf a ∈ (resolved.map rpcTransportOf).dedup := by
        rw [List.mem_dedup]
        exact List.mem_map_of_mem rpcTransportOf ha
      exact List.mem_map_of_mem _ hmem
    · rw [List.mem_filter]
      exact ⟨ha, by simp⟩

/-- Witness for `consume_rpcs_no_apis`: with an explicit empty list the call
raises `NoApisToListenOn`; with one registered API it starts a consumer whose
single transport group serves that API. -/
theorem consume_rpcs_no_apis_witness :
    consume_rpcs (fun _ => 0) [] (some []) = ConsumeRpcsOutcome.noApisToListenOn ∧
    consume_rpcs (fun _ => 0) ["auth"] none =
      ConsumeRpcsOutcome.started (get_rpc_transports (fun _ => 0) ["auth"]) ∧
    "auth" ∈ List.filter (fun x => decide ((fun _ => 0) x = (fun _ => 0) "auth")) ["auth"] := by
  refine ⟨(consume_rpcs_no_apis (fun _ => 0) [] (some [])).1.mpr (Or.inl rfl), ?_, ?_⟩
  · exact (((consume_rpcs_no_apis (fun _ => 0) ["auth"] none).2 ["auth"] rfl (by decide))).1
  · exact ((((consume_rpcs_no_apis (fun _ => 0) ["auth"] none).2 ["auth"] rfl (by decide))).2
      "auth" (by decide)).2

/-! ### Per-transport RPC consume loop (`BusClient._consume_rpcs_with_transport`,
bus_client.py lines 351-396) -/

/-- Outcome of executing `_call_rpc_local` for one received message: a normal
result value, a `SuddenDeathException`, a `CancelledError`, or any other
exception (carried as its description). -/
inductive LocalCallResult where
  | success (v : String)
  | suddenDeath
  | cancelled
  | failure (e : ExceptionInfo)
deriving DecidableEq, Repr

/-- Awaited effects of the consume loop, in program order: incoming validation
of the rpc message, the `before_rpc_execution` hook, the `after_rpc_execution`
hook (receiving the built result message), outgoing validation of the result
message, and sending the result message via the result transport. -/
inductive ConsumeEvent where
  | validatedIncoming (msgId : Nat)
  | hookBeforeRpcExecution (msgId : Nat)
  | hookAfterRpcExecution (msgId : Nat) (rm : ResultMessage)
  | validatedOutgoing (msgId : Nat)
  | resultSent (rm : ResultMessage)
deriving DecidableEq, Repr

/-- Control-flow signal escaping the per-message body: `terminate` for
`SuddenDeathException` (the consumer returns), `reraiseCancel` for
`asyncio.CancelledError` (re-raised, never turned into a result message). -/
inductive LoopSignal where
  | terminate
  | reraiseCancel
deriving DecidableEq, Repr

/-- The body of the inner `for rpc_message in rpc_messages` loop
(bus_client.py lines 363-396): validate incoming, fire `before_rpc_execution`,
run the local call; `SuddenDeathException` returns from the consumer,
`CancelledError` re-raises, any other exception becomes the result; build the
`ResultMessage`, fire `after_rpc_execution`, validate outgoing unless the
result message is an error, and send the result. -/
def processRpcMessage (m : RpcMessage) (callResult : LocalCallResult) :
    List ConsumeEvent × Option LoopSignal :=
  let ev0 := [ConsumeEvent.validatedIncoming m.id, ConsumeEvent.hookBeforeRpcExecution m.id]
  match callResult with
  | LocalCallResult.suddenDeath => (ev0, some LoopSignal.terminate)
  | LocalCallResult.cancelled => (ev0, some LoopSignal.reraiseCancel)
  | LocalCallResult.failure e =>
      let rm := mkResultMessage m.id (Sum.inr e)
      let ev1 := ev0 ++ [ConsumeEvent.hookAfterRpcExecution m.id rm]
      let ev2 := if rm.error then ev1 else ev1 ++ [ConsumeEvent.validatedOutgoing m.id]
      (ev2 ++ [ConsumeEvent.resultSent rm], none)
  | LocalCallResult.success v =>
      let rm := mkResultMessage m.id (Sum.inl (deform_to_bus v))
      let ev1 := ev0 ++ [ConsumeEvent.hookAfterRpcExecution m.id rm]
      let ev2 := if rm.error then ev1 else ev1 ++ [ConsumeEvent.validatedOutgoing m.id]
      (ev2 ++ [ConsumeEvent.resultSent rm], none)

/-- Process a batch of received messages in order, stopping at the first
control-flow signal (the remaining messages of the batch are not processed). -/
def processBatch : List (RpcMessage × LocalCallResult) → List ConsumeEvent × Option LoopSignal
  | [] => ([], none)
  | (m, cr) :: rest =>
    let (ev, sig) := processRpcMessage m cr
    match sig with
    | some s => (ev, some s)
    | none =>
      let (ev', sig') := processBatch rest
      (ev ++ ev', sig')

/-- One step of the outer `while True` loop: either `consume_rpcs` on the
transport returns a batch of messages (paired with what their local execution
does), or it raises `TransportIsClosed`. -/
inductive ConsumeBatch where
  | batch (msgs : List (RpcMessage × LocalCallResult))
  | transportClosed
deriving DecidableEq, Repr

/-- How a finite run of the consume loop ended: a normal `return` on
`TransportIsClosed`, a `return` caused by `SuddenDeathException`, a re-raised
`CancelledError`, or the supplied script of transport batches ran out (the real
loop would keep waiting on the transport). -/
inductive LoopTermination where
  | normalReturn
  | suddenDeathReturn
  | cancelledRaise
  | scriptExhausted
deriving DecidableEq, Repr

/-- The `while True` loop of `_consume_rpcs_with_transport` (bus_client.py
lines 357-396), run against a finite script of transport responses. -/
def consumeLoop : List ConsumeBatch → List ConsumeEvent × LoopTermination
  | [] => ([], LoopTermination.scriptExhausted)
  | ConsumeBatch.transportClosed :: _ => ([], LoopTermination.normalReturn)
  | ConsumeBatch.batch msgs :: script =>
    let (ev, sig) := processBatch msgs
    match sig with
    | some LoopSignal.terminate => (ev, LoopTermination.suddenDeathReturn)
    | some LoopSignal.reraiseCancel => (ev, LoopTermination.cancelledRaise)
    | none =>
      let (ev', t) := consumeLoop script
      (ev ++ ev', t)

theorem processRpcMessage_failure_eq (m : RpcMessage) (e : ExceptionInfo) :
    processRpcMessage m (LocalCallResult.failure e) =
      ([ConsumeEvent.validatedIncoming m.id, ConsumeEvent.hookBeforeRpcExecution m.id,
        ConsumeEvent.hookAfterRpcExecution m.id
          { rpc_message_id := m.id, result := e.description, error := true, trace := e.trace },
        ConsumeEvent.resultSent
          { rpc_message_id := m.id, result := e.description, error := true, trace := e.trace }],
       none) := by
  simp [processRpcMessage, mkResultMessage]

theorem processRpcMessage_success_eq (m : RpcMessage) (v : String) :
    processRpcMessage m (LocalCallResult.success v) =
      ([ConsumeEvent.validatedIncoming m.id, ConsumeEvent.hookBeforeRpcExecution m.id,
        ConsumeEvent.hookAfterRpcExecution m.id
          { rpc_message_id := m.id, result := deform_to_bus v, error := false, trace := "" },
        ConsumeEvent.validatedOutgoing m.id,
        ConsumeEvent.resultSent
          { rpc_message_id := m.id, result := deform_to_bus v, error := false, trace := "" }],
       none) := by
  simp [processRpcMessage, mkResultMessage]

/-- C6: in the server consume loop, the result message built from a local
execution failure has its error flag set, carries the exception description as
its result, and skips outgoing validation; the result message built from a
successful execution has its error flag clear and is validated outgoing before
being sent via the result transport. -/
theorem rpc_result_validation_policy (m : RpcMessage) (e : ExceptionInfo) (v : String) :
    (∀ rm, ConsumeEvent.resultSent rm ∈ (processRpcMessage m (LocalCallResult.failure e)).1 →
      rm.error = true ∧ rm.result = e.description ∧ rm.trace = e.trace) ∧
    ConsumeEvent.validatedOutgoing m.id ∉ (processRpcMessage m (LocalCallResult.failure e)).1 ∧
    (∀ rm, ConsumeEvent.resultSent rm ∈ (processRpcMessage m (LocalCallResult.success v)).1 →
      rm.error = false ∧ rm.result = deform_to_bus v) ∧
    List.Sublist
      [ConsumeEvent.validatedOutgoing m.id,
       ConsumeEvent.resultSent (mkResultMessage m.id (Sum.inl (deform_to_bus v)))]
      (processRpcMessage m (LocalCallResult.success v)).1 := by
  refine ⟨?_, ?_, ?_, ?_⟩
  · intro rm hmem
    rw [processRpcMessage_failure_eq] at hmem
    simp at hmem
    subst hmem
    exact ⟨rfl, rfl, rfl⟩
  · rw [processRpcMessage_failure_eq]
    simp
  · intro rm hmem
    rw [processRpcMessage_success_eq] at hmem
    simp at hmem
    subst hmem
    exact ⟨rfl, rfl⟩
  · rw [processRpcMessage_success_eq]
    simp only [mkResultMessage]
    exact List.Sublist.cons _ (List.Sublist.cons _ (List.Sublist.cons _
      (List.Sublist.cons₂ _ (List.Sublist.cons₂ _ List.Sublist.slnil))))

/-- Witness for `rpc_result_validation_policy` at a concrete message,
exception and success value. -/
theorem rpc_result_validation_policy_witness :
    ({ rpc_message_id := 1, result := "boom", error := true, trace := "T" } :
        ResultMessage).error = true ∧
    ConsumeEvent.validatedOutgoing 1 ∉
      (processRpcMessage ⟨1, "auth", "check", [], "rp"⟩
        (LocalCallResult.failure ⟨"boom", "T"⟩)).1 ∧
    ({ rpc_message_id := 1, result := "ok", error := false, trace := "" } :
        ResultMessage).error = false := by
  have h := rpc_result_validation_policy ⟨1, "auth", "check", [], "rp"⟩ ⟨"boom", "T"⟩ "ok"
  refine ⟨?_, h.2.1, ?_⟩
  · exact (h.1 { rpc_message_id := 1, result := "boom", error := true, trace := "T" }
      (by rw [processRpcMessage_failure_eq]; simp)).1
  · exact (h.2.2.1 { rpc_message_id := 1, result := "ok", error := false, trace := "" }
      (by rw [processRpcMessage_success_eq]; simp [deform_to_bus])).1

/-- C7: in the per-transport consume loop, a `SuddenDeathException` from local
execution terminates the consumer immediately with no result sent; a
`CancelledError` is re-raised and never converted into a result message; any
other exception is sent back as an error `ResultMessage` and the loop carries
on with the rest of its script; and `TransportIsClosed` raised by the
transport's consume call terminates the loop normally. -/
theorem consume_loop_exception_handling (m : RpcMessage) (e : ExceptionInfo)
    (rest : List (RpcMessage × LocalCallResult)) (script : List ConsumeBatch) :
    (consumeLoop (ConsumeBatch.batch ((m, LocalCallResult.suddenDeath) :: rest) :: script)).2 =
      LoopTermination.suddenDeathReturn ∧
    (∀ rm, ConsumeEvent.resultSent rm ∉
      (consumeLoop (ConsumeBatch.batch ((m, LocalCallResult.suddenDeath) :: rest) :: script)).1) ∧
    (consumeLoop (ConsumeBatch.batch ((m, LocalCallResult.cancelled) :: rest) :: script)).2 =
      LoopTermination.cancelledRaise ∧
    (∀ rm, ConsumeEvent.resultSent rm ∉
      (consumeLoop (ConsumeBatch.batch ((m, LocalCallResult.cancelled) :: rest) :: script)).1) ∧
    ConsumeEvent.resultSent
        { rpc_message_id := m.id, result := e.description, error := true, trace := e.trace } ∈
      (consumeLoop (ConsumeBatch.batch [(m, LocalCallResult.failure e)] :: script)).1 ∧
    (consumeLoop (ConsumeBatch.batch [(m, LocalCallResult.failure e)] :: script)).2 =
      (consumeLoop script).2 ∧
    consumeLoop (ConsumeBatch.transportClosed :: script) = ([], LoopTermination.normalReturn) := by
  have hsd : consumeLoop (ConsumeBatch.batch ((m, LocalCallResult.suddenDeath) :: rest) :: script)
      = ([ConsumeEvent.validatedIncoming m.id, ConsumeEvent.hookBeforeRpcExecution m.id],
         LoopTermination.suddenDeathReturn) := by
    simp [consumeLoop, processBatch, processRpcMessage]
  have hcan : consumeLoop (ConsumeBatch.batch ((m, LocalCallResult.cancelled) :: rest) :: script)
      = ([ConsumeEvent.validatedIncoming m.id, ConsumeEvent.hookBeforeRpcExecution m.id],
         LoopTermination.cancelledRaise) := by
    simp [consumeLoop, processBatch, processRpcMessage]
  have hfail : consumeLoop (ConsumeBatch.batch [(m, LocalCallResult.failure e)] :: script)
      = ((processRpcMessage m (LocalCallResult.failure e)).1 ++ (consumeLoop script).1,
         (consumeLoop script).2) := by
    rw [processRpcMessage_failure_eq]
    simp [consumeLoop, processBatch, processRpcMessage_failure_eq]
  refine ⟨by rw [hsd], ?_, by rw [hcan], ?_, ?_, by rw [hfail], by simp [consumeLoop]⟩
  · intro rm
    rw [hsd]
    simp
  · intro rm
    rw [hcan]
    simp
  · rw [hfail, processRpcMessage_failure_eq]
    simp

/-- Witness for `consume_loop_exception_handling` at a concrete message and
exception, showing in particular that no result message is sent for a sudden
death. -/
theorem consume_loop_exception_handling_witness :
    (consumeLoop [ConsumeBatch.batch [(⟨1, "auth", "check", [], "rp"⟩,
        LocalCallResult.suddenDeath)]]).2 = LoopTermination.suddenDeathReturn ∧
    ConsumeEvent.resultSent { rpc_message_id := 1, result := "boom", error := true, trace := "T" } ∉
      (consumeLoop [ConsumeBatch.batch [(⟨1, "auth", "check", [], "rp"⟩,
        LocalCallResult.suddenDeath)]]).1 ∧
    consumeLoop [ConsumeBatch.transportClosed] = ([], LoopTermination.normalReturn) := by
  have h := consume_loop_exception_handling ⟨1, "auth", "check", [], "rp"⟩ ⟨"boom", "T"⟩ [] []
  exact ⟨h.1, h.2.1 { rpc_message_id := 1, result := "boom", error := true, trace := "T" },
    h.2.2.2.2.2.2⟩

/-! ### Remote RPC call (`BusClient.call_rpc_remote`, bus_client.py
lines 398-487) -/

/-- Behaviour of the awaited pair `(receive_result, call_rpc)` under
`asyncio.wait_for`: either the deadline expires first (`asyncio.TimeoutError`),
or a `ResultMessage` arrives in time. -/
inductive TransportReply where
  | timeout
  | reply (rm : ResultMessage)
deriving DecidableEq, Repr

/-- Awaited effects of `call_rpc_remote`, in program order: outgoing validation
of the rpc message, the `before_rpc_call` hook, draining the two pending
operations after a deadline expiry, the `after_rpc_call` hook (receiving the
result message), and incoming validation of the result message. -/
inductive RpcCallEvent where
  | validatedOutgoing
  | hookBeforeRpcCall
  | drainedPendingOperations
  | hookAfterRpcCall (rm : ResultMessage)
  | validatedIncoming
deriving DecidableEq, Repr

/-- How `call_rpc_remote` ends: `LightbusTimeout` (carrying the deadline that
was used), `LightbusServerError` (carrying the rendered error message), or a
normal return of the result payload. -/
inductive RpcCallOutcome where
  | timeoutError (seconds : Nat)
  | serverError (message : String)
  | success (result : String)
deriving DecidableEq, Repr

/-- The `LightbusServerError` message built at bus_client.py lines 479-483:
`"Error while calling {canonical}: {result}\nRemote stack trace:\n{trace}"`. -/
def mkServerErrorMessage (canonical result trace : String) : String :=
  "Error while calling " ++ canonical ++ ": " ++ result ++ "\nRemote stack trace:\n" ++ trace

/-- `BusClient.call_rpc_remote` (bus_client.py lines 398-487). The deadline is
`options["timeout"]` when given, else the per-API `rpc_timeout` from config.
The outgoing rpc message is validated, `before_rpc_call` fires, then the
result-receive and rpc-send pair is awaited under the deadline: on expiry both
pending operations are drained (absorbing cancellation) and `LightbusTimeout`
is raised; on arrival `after_rpc_call` fires, then an error result raises
`LightbusServerError` built from the remote result and trace, while a normal
result is validated incoming and its payload returned. -/
def call_rpc_remote (msgId : Nat) (api_name name : String) (kwargs : List (String × String))
    (return_path : String) (optionsTimeout : Option Nat) (configRpcTimeout : Nat)
    (transport : TransportReply) : List RpcCallEvent × RpcCallOutcome :=
  let rpc_message : RpcMessage := ⟨msgId, api_name, name, kwargs, return_path⟩
  let timeout := match optionsTimeout with
    | some t => t
    | none => configRpcTimeout
  let ev1 := [RpcCallEvent.validatedOutgoing, RpcCallEvent.hookBeforeRpcCall]
  match transport with
  | TransportReply.timeout =>
      (ev1 ++ [RpcCallEvent.drainedPendingOperations], RpcCallOutcome.timeoutError timeout)
  | TransportReply.reply rm =>
      let ev2 := ev1 ++ [RpcCallEvent.hookAfterRpcCall rm]
      if rm.error then
        (ev2, RpcCallOutcome.serverError
          (mkServerErrorMessage rpc_message.canonical_name rm.result rm.trace))
      else
        (ev2 ++ [RpcCallEvent.validatedIncoming], RpcCallOutcome.success rm.result)

/-- C4: `call_rpc_remote` uses `options.timeout` as its deadline when given and
the per-API configured `rpc_timeout` otherwise; when neither pending operation
completes before the deadline it drains the pending operations and raises
`LightbusTimeout`; `before_rpc_call` fires before the await in every case, and
`after_rpc_call` fires exactly when a result message arrives (error or not),
never on timeout. -/
theorem call_rpc_remote_timeout_behaviour (msgId : Nat) (api_name name : String)
    (kwargs : List (String × String)) (return_path : String) (optionsTimeout : Option Nat)
    (configRpcTimeout : Nat) (rm : ResultMessage) :
    (call_rpc_remote msgId api_name name kwargs return_path optionsTimeout configRpcTimeout
        TransportReply.timeout).2 =
      RpcCallOutcome.timeoutError (optionsTimeout.getD configRpcTimeout) ∧
    List.Sublist [RpcCallEvent.hookBeforeRpcCall, RpcCallEvent.drainedPendingOperations]
      (call_rpc_remote msgId api_name name kwargs return_path optionsTimeout configRpcTimeout
        TransportReply.timeout).1 ∧
    (∀ rm', RpcCallEvent.hookAfterRpcCall rm' ∉
      (call_rpc_remote msgId api_name name kwargs return_path optionsTimeout configRpcTimeout
        TransportReply.timeout).1) ∧
    List.Sublist [RpcCallEvent.hookBeforeRpcCall, RpcCallEvent.hookAfterRpcCall rm]
      (call_rpc_remote msgId api_name name kwargs return_path optionsTimeout configRpcTimeout
        (TransportReply.reply rm)).1 := by
  have htimeout : (call_rpc_remote msgId api_name name kwargs return_path optionsTimeout
      configRpcTimeout TransportReply.timeout) =
      ([RpcCallEvent.validatedOutgoing, RpcCallEvent.hookBeforeRpcCall,
        RpcCallEvent.drainedPendingOperations],
       RpcCallOutcome.timeoutError (optionsTimeout.getD configRpcTimeout)) := by
    cases optionsTimeout with
    | none => simp [call_rpc_remote]
    | some t => simp [call_rpc_remote]
  refine ⟨by rw [htimeout], ?_, ?_, ?_⟩
  · rw [htimeout]
    exact List.Sublist.cons _ (List.Sublist.cons₂ _ (List.Sublist.cons₂ _ List.Sublist.slnil))
  · intro rm'
    rw [htimeout]
    simp
  · have hreply : (call_rpc_remote msgId api_name name kwargs return_path optionsTimeout
        configRpcTimeout (TransportReply.reply rm)).1 =
        [RpcCallEvent.validatedOutgoing, RpcCallEvent.hookBeforeRpcCall,
         RpcCallEvent.hookAfterRpcCall rm] ++
          (if rm.error then [] else [RpcCallEvent.validatedIncoming]) := by
      by_cases herr : rm.error
      · simp [call_rpc_remote, herr]
      · simp [call_rpc_remote, herr]
    rw [hreply]
    cases herr : rm.error
    · simp only [Bool.false_eq_true, if_false]
      exact List.Sublist.cons _ (List.Sublist.cons₂ _
        (List.Sublist.cons₂ _ (List.nil_sublist _)))
    · simp only [if_true]
      exact List.Sublist.cons _ (List.Sublist.cons₂ _
        (List.Sublist.cons₂ _ (List.nil_sublist _)))

/-- Witness for `call_rpc_remote_timeout_behaviour`: with no per-call timeout
the configured `rpc_timeout` of 5 is used, no `after_rpc_call` hook fires on
the timeout path, and the hook does fire on a reply. -/
theorem call_rpc_remote_timeout_behaviour_witness :
    (call_rpc_remote 1 "auth" "check" [] "rp" none 5 TransportReply.timeout).2 =
      RpcCallOutcome.timeoutError 5 ∧
    RpcCallEvent.hookAfterRpcCall (ResultMessage.mk 1 "ok" false "") ∉
      (call_rpc_remote 1 "auth" "check" [] "rp" none 5 TransportReply.timeout).1 := by
  have h := call_rpc_remote_timeout_behaviour 1 "auth" "check" [] "rp" none 5
    { rpc_message_id := 1, result := "ok", error := false, trace := "" }
  exact ⟨h.1, h.2.2.1 { rpc_message_id := 1, result := "ok", error := false, trace := "" }⟩

/-- C5: when the received result message has its error flag set,
`call_rpc_remote` raises `LightbusServerError` whose message contains the
remote result description and the remote trace; when the error flag is clear,
the result message is validated incoming and its payload is returned. -/
theorem call_rpc_remote_server_error (msgId : Nat) (api_name name : String)
    (kwargs : List (String × String)) (return_path : String) (optionsTimeout : Option Nat)
    (configRpcTimeout : Nat) (rm : ResultMessage) :
    (rm.error = true →
      (call_rpc_remote msgId api_name name kwargs return_path optionsTimeout configRpcTimeout
          (TransportReply.reply rm)).2 =
        RpcCallOutcome.serverError
          (mkServerErrorMessage (api_name ++ "." ++ name) rm.result rm.trace) ∧
      (∃ pre post, mkServerErrorMessage (api_name ++ "." ++ name) rm.result rm.trace =
        pre ++ rm.result ++ post) ∧
      (∃ pre, mkServerErrorMessage (api_name ++ "." ++ name) rm.result rm.trace =
        pre ++ rm.trace)) ∧
    (rm.error = false →
      (call_rpc_remote msgId api_name name kwargs return_path optionsTimeout configRpcTimeout
          (TransportReply.reply rm)).2 = RpcCallOutcome.success rm.result ∧
      RpcCallEvent.validatedIncoming ∈
        (call_rpc_remote msgId api_name name kwargs return_path optionsTimeout configRpcTimeout
          (TransportReply.reply rm)).1) := by
  constructor
  · intro herr
    refine ⟨by simp [call_rpc_remote, herr, RpcMessage.canonical_name], ?_, ?_⟩
    · refine ⟨"Error while calling " ++ (api_name ++ "." ++ name) ++ ": ",
        "\nRemote stack trace:\n" ++ rm.trace, ?_⟩
      simp [mkServerErrorMessage, String.append_assoc]
    · refine ⟨"Error while calling " ++ (api_name ++ "." ++ name) ++ ": " ++ rm.result ++
        "\nRemote stack trace:\n", ?_⟩
      simp [mkServerErrorMessage, String.append_assoc]
  · intro herr
    constructor
    · simp [call_rpc_remote, herr]
    · simp [call_rpc_remote, herr]

/-- Witness for `call_rpc_remote_server_error`: a reply of
`error=true, result="boom", trace="T"` raises a server error containing both
strings, and a non-error reply returns its payload. -/
theorem call_rpc_remote_server_error_witness :
    (call_rpc_remote 1 "svc.acct" "ping" [] "rp" none 5
        (TransportReply.reply (ResultMessage.mk 1 "boom" true "T"))).2 =
      RpcCallOutcome.serverError (mkServerErrorMessage "svc.acct.ping" "boom" "T") ∧
    (∃ pre post, mkServerErrorMessage "svc.acct.ping" "boom" "T" = pre ++ "boom" ++ post) ∧
    (∃ pre, mkServerErrorMessage "svc.acct.ping" "boom" "T" = pre ++ "T") ∧
    (call_rpc_remote 1 "svc.acct" "ping" [] "rp" none 5
        (TransportReply.reply (ResultMessage.mk 1 "pong" false ""))).2 =
      RpcCallOutcome.success "pong" := by
  have herr := call_rpc_remote_server_error 1 "svc.acct" "ping" [] "rp" none 5
    { rpc_message_id := 1, result := "boom", error := true, trace := "T" }
  have hok := call_rpc_remote_server_error 1 "svc.acct" "ping" [] "rp" none 5
    { rpc_message_id := 1, result := "pong", error := false, trace := "" }
  exact ⟨(herr.1 rfl).1, (herr.1 rfl).2.1, (herr.1 rfl).2.2, (hok.2 rfl).1⟩

/-! ### Event firing (`BusClient.fire_event`, bus_client.py lines 530-534) -/

/-- Client-level actions an event operation can perform: delegating to
`event_client.listen`, or the steps of the event-send path (validate the event
message, fire `before_event_sent`, call `send_event` on the event transport
serving the API, fire `after_event_sent`). -/
inductive ClientAction where
  | eventClientListen (api_name name : String)
  | validateEventMessage (api_name name : String)
  | hookBeforeEventSent (api_name name : String)
  | transportSendEvent (api_name name : String)
  | hookAfterEventSent (api_name name : String)
deriving DecidableEq, Repr

/-- `BusClient.fire_event` (bus_client.py lines 530-534): despite its docstring
("Fire an event onto the bus"), the body is
`return self.event_client.listen(api_name=..., name=..., kwargs=..., options=...)`,
a call to the event client's listen method. -/
def fire_event (api_name name : String) : List ClientAction :=
  [ClientAction.eventClientListen api_name name]

/-- Modelled from the spec: the intended event-send path for `fire_event`
(spec sections 4.C and 9; the sending implementation itself is not under src/):
validate the event message, fire `before_event_sent`, call `send_event` on the
event transport serving the API, fire `after_event_sent`. -/
def event_send_path (api_name name : String) : List ClientAction :=
  [ClientAction.validateEventMessage api_name name,
   ClientAction.hookBeforeEventSent api_name name,
   ClientAction.transportSendEvent api_name name,
   ClientAction.hookAfterEventSent api_name name]

/-- C3: evaluated at the concrete input `api_name="svc.x"`, `name="evt"`,
`fire_event` delegates to `event_client.listen` and performs none of the
event-send path: no `send_event` on the event transport, no
`before_event_sent` or `after_event_sent` hook, no validation. This contradicts
the claim (and the code's own docstring), which require the event-send path. -/
theorem fire_event_calls_listen :
    fire_event "svc.x" "evt" = [ClientAction.eventClientListen "svc.x" "evt"] ∧
    fire_event "svc.x" "evt" ≠ event_send_path "svc.x" "evt" ∧
    ClientAction.transportSendEvent "svc.x" "evt" ∉ fire_event "svc.x" "evt" ∧
    ClientAction.hookBeforeEventSent "svc.x" "evt" ∉ fire_event "svc.x" "evt" ∧
    ClientAction.hookAfterEventSent "svc.x" "evt" ∉ fire_event "svc.x" "evt" := by
  refine ⟨rfl, by decide, by decide, by decide, by decide⟩

/-! ### Hook registration (`BusClient._register_hook_callback`,
`_make_hook_decorator`, `on_stop`, `before_worker_start`,
`after_worker_stopped`, bus_client.py lines 638-685) -/

/-- The `_hook_callbacks` store: entries of (hook name, before_plugins flag,
callback id), in registration order. The source keys a defaultdict by
`(name, before_plugins)`; flattening keeps the same information. -/
def HookCallbacks := List (String × Bool × Nat)

/-- `BusClient._register_hook_callback` (lines 638-639): append the callback
under the given hook name and before/after-plugins position. -/
def _register_hook_callback (reg : HookCallbacks) (name : String) (fn : Nat)
    (before_plugins : Bool) : HookCallbacks :=
  List.append reg [(name, before_plugins, fn)]

/-- `BusClient._make_hook_decorator` (lines 641-653): whether the callback is
passed directly or applied through the returned decorator, it ends up
registered via `_register_hook_callback` under the given hook name. -/
def _make_hook_decorator (reg : HookCallbacks) (name : String) (before_plugins : Bool)
    (callback : Nat) : HookCallbacks :=
  _register_hook_callback reg name callback before_plugins

/-- `BusClient.before_worker_start` (lines 673-678): registers under the
`before_worker_start` hook. -/
def before_worker_start (reg : HookCallbacks) (callback : Nat) (before_plugins : Bool) :
    HookCallbacks :=
  _make_hook_decorator reg "before_worker_start" before_plugins callback

/-- `BusClient.after_worker_stopped` (lines 680-685): registers under the
`after_worker_stopped` hook. -/
def after_worker_stopped (reg : HookCallbacks) (callback : Nat) (before_plugins : Bool) :
    HookCallbacks :=
  _make_hook_decorator reg "after_worker_stopped" before_plugins callback

/-- `BusClient.on_stop` (lines 664-671): its body delegates to
`before_worker_start`. -/
def on_stop (reg : HookCallbacks) (callback : Nat) (before_plugins : Bool) : HookCallbacks :=
  before_worker_start reg callback before_plugins

/-- The callbacks stored under one hook name (both before- and after-plugins
positions), in order. -/
def callbacksForHook (reg : HookCallbacks) (name : String) : List Nat :=
  (List.filter (fun e => e.1 = name) reg).map (fun e => e.2.2)

/-- The callbacks run by `_execute_hook("before_worker_start")` in
`_setup_server` (bus_client.py line 230), i.e. before the worker starts. -/
def hooksRunAtWorkerStart (reg : HookCallbacks) : List Nat :=
  callbacksForHook reg "before_worker_start"

/-- The callbacks run by `_execute_hook("after_worker_stopped")` in
`_stop_server_inner` (bus_client.py line 263), i.e. after the worker stops. -/
def hooksRunAfterWorkerStop (reg : HookCallbacks) : List Nat :=
  callbacksForHook reg "after_worker_stopped"

/-- C10: registering a callback through `on_stop` attaches it to the
`before_worker_start` hook and not to `after_worker_stopped` — it runs before
the worker starts, not after the worker stops — while registering through
`after_worker_stopped` attaches it to the `after_worker_stopped` hook. -/
theorem on_stop_attaches_before_worker_start (reg : HookCallbacks) (cb : Nat)
    (before_plugins : Bool) (hfresh : cb ∉ hooksRunAfterWorkerStop reg) :
    cb ∈ hooksRunAtWorkerStart (on_stop reg cb before_plugins) ∧
    cb ∉ hooksRunAfterWorkerStop (on_stop reg cb before_plugins) ∧
    cb ∈ hooksRunAfterWorkerStop (after_worker_stopped reg cb before_plugins) := by
  refine ⟨?_, ?_, ?_⟩
  · simp [hooksRunAtWorkerStart, callbacksForHook, on_stop, before_worker_start,
      _make_hook_decorator, _register_hook_callback, List.filter_append]
  · intro hmem
    apply hfresh
    simp only [hooksRunAfterWorkerStop, callbacksForHook, on_stop, before_worker_start,
      _make_hook_decorator, _register_hook_callback, List.filter_append] at hmem ⊢
    simpa using hmem
  · simp [hooksRunAfterWorkerStop, callbacksForHook, after_worker_stopped,
      _make_hook_decorator, _register_hook_callback, List.filter_append]

/-- Witness for `on_stop_attaches_before_worker_start`: callback 7 registered
via `on_stop` on an empty registry. -/
theorem on_stop_attaches_before_worker_start_witness :
    7 ∈ hooksRunAtWorkerStart (on_stop [] 7 false) ∧
    7 ∉ hooksRunAfterWorkerStop (on_stop [] 7 false) ∧
    7 ∈ hooksRunAfterWorkerStop (after_worker_stopped [] 7 false) :=
  on_stop_attaches_before_worker_start [] 7 false (by decide)

/-! ### Lazy initialization (`BusClient.lazy_load_now`, bus_client.py
lines 273-314) -/

/-- State touched by `lazy_load_now`: the `_lazy_load_complete` flag and
counters for its three working steps. `loadCount` counts calls to
`schema.ensure_loaded_from_bus()`; `addApiSweeps` counts full sweeps of the
add-local-APIs loop; `openSweeps` counts full sweeps of the loop opening every
distinct transport returned by `transport_registry.get_all_transports()`. -/
structure LazyState where
  complete : Bool
  loadCount : Nat
  addApiSweeps : Nat
  openSweeps : Nat
deriving DecidableEq, Repr

/-- The atomic sections of `lazy_load_now` between await points: the guard on
`_lazy_load_complete` (line 284), loading remote schemas (line 289), publishing
local API schemas (lines 299-300), opening every distinct transport
(lines 310-311), and setting `_lazy_load_complete` (line 314). -/
inductive LazyInstr where
  | checkComplete
  | loadSchemas
  | addApis
  | openTransports
  | markComplete
deriving DecidableEq, Repr

/-- The body of `lazy_load_now` as the sequence of its atomic sections. -/
def lazyProgram : List LazyInstr :=
  [LazyInstr.checkComplete, LazyInstr.loadSchemas, LazyInstr.addApis,
   LazyInstr.openTransports, LazyInstr.markComplete]

/-- One atomic step of a task running `lazy_load_now`: execute the next
section and return the updated state and the task's remaining program. The
guard drops the rest of the program when `_lazy_load_complete` is already set
(the early `return` at lines 284-285). -/
def stepLazyTask (s : LazyState) (p : List LazyInstr) : LazyState × List LazyInstr :=
  match p with
  | [] => (s, [])
  | LazyInstr.checkComplete :: rest => if s.complete then (s, []) else (s, rest)
  | LazyInstr.loadSchemas :: rest => ({ s with loadCount := s.loadCount + 1 }, rest)
  | LazyInstr.addApis :: rest => ({ s with addApiSweeps := s.addApiSweeps + 1 }, rest)
  | LazyInstr.openTransports :: rest => ({ s with openSweeps := s.openSweeps + 1 }, rest)
  | LazyInstr.markComplete :: rest => ({ s with complete := true }, rest)

/-- Interleaved execution of two concurrent `lazy_load_now` calls on one
client: the schedule says, step by step, whether the second task (`true`) or
the first (`false`) runs its next atomic section. Control can change hands at
every await point, which is exactly what the event loop permits. -/
def runTwoLazyTasks :
    LazyState → List LazyInstr → List LazyInstr → List Bool →
      LazyState × List LazyInstr × List LazyInstr
  | s, p1, p2, [] => (s, p1, p2)
  | s, p1, p2, b :: sched =>
    if b then
      let (s', p2') := stepLazyTask s p2
      runTwoLazyTasks s' p1 p2' sched
    else
      let (s', p1') := stepLazyTask s p1
      runTwoLazyTasks s' p1' p2 sched

/-- Run one task's steps for the given fuel (5 steps complete an uninterrupted
`lazy_load_now`). -/
def runLazySteps : Nat → LazyState × List LazyInstr → LazyState × List LazyInstr
  | 0, sp => sp
  | n + 1, (s, p) => runLazySteps n (stepLazyTask s p)

/-- One uninterleaved (sequential) call of `lazy_load_now`. -/
def lazy_load_now (s : LazyState) : LazyState :=
  (runLazySteps 5 (s, lazyProgram)).1

/-- The client state right after `__init__`: `_lazy_load_complete = False` and
no step performed yet. -/
def initLazyState : LazyState := ⟨false, 0, 0, 0⟩

/-- `n` sequential calls of `lazy_load_now` on a fresh client, each completing
before the next begins. -/
def seqLazyCalls : Nat → LazyState
  | 0 => initLazyState
  | n + 1 => lazy_load_now (seqLazyCalls n)

/-- Counterexample to C1 as stated: two concurrent `lazy_load_now` calls on a
fresh client, interleaved so that both pass the `_lazy_load_complete` guard
before either sets it. Both calls run to completion (both remaining programs
are empty), yet `schema.ensure_loaded_from_bus()` has run twice, as have the
publish and open steps — not exactly once — and the second caller did not wait
on the in-flight initialization. The schedule steps task one's guard, task
two's guard, then each task to completion. -/
theorem lazy_load_concurrent_runs_twice :
    (runTwoLazyTasks initLazyState lazyProgram lazyProgram
      [false, true, false, false, false, false, true, true, true, true]).1.loadCount = 2 ∧
    (runTwoLazyTasks initLazyState lazyProgram lazyProgram
      [false, true, false, false, false, false, true, true, true, true]).1.addApiSweeps = 2 ∧
    (runTwoLazyTasks initLazyState lazyProgram lazyProgram
      [false, true, false, false, false, false, true, true, true, true]).1.openSweeps = 2 ∧
    (runTwoLazyTasks initLazyState lazyProgram lazyProgram
      [false, true, false, false, false, false, true, true, true, true]).2.1 = [] ∧
    (runTwoLazyTasks initLazyState lazyProgram lazyProgram
      [false, true, false, false, false, false, true, true, true, true]).2.2 = [] := by
  decide

theorem lazy_load_now_of_complete (s : LazyState) (h : s.complete = true) :
    lazy_load_now s = s := by
  obtain ⟨c, lc, ac, oc⟩ := s
  simp only at h
  subst h
  rfl

/-- C1 (amended): for sequential calls of `lazy_load_now` — each completing
before the next begins — the lazy initialization steps (load remote schemas,
publish local API schemas, open every distinct transport) run exactly once on
a fresh client no matter how many calls are made: the first call runs them and
marks completion, and every subsequent call observes the completed state and
returns without re-running them. -/
theorem lazy_load_sequential_exactly_once (n : Nat) :
    (seqLazyCalls (n + 1)).complete = true ∧
    (seqLazyCalls (n + 1)).loadCount = 1 ∧
    (seqLazyCalls (n + 1)).addApiSweeps = 1 ∧
    (seqLazyCalls (n + 1)).openSweeps = 1 ∧
    lazy_load_now (seqLazyCalls (n + 1)) = seqLazyCalls (n + 1) := by
  induction n with
  | zero =>
    refine ⟨by decide, by decide, by decide, by decide, ?_⟩
    apply lazy_load_now_of_complete
    decide
  | succ n ih =>
    have hstep : seqLazyCalls (n + 1 + 1) = seqLazyCalls (n + 1) := by
      show lazy_load_now (seqLazyCalls (n + 1)) = seqLazyCalls (n + 1)
      exact ih.2.2.2.2
    rw [hstep]
    exact ih
